import Mathlib

/-! ViewGLContext and PbufferGLContext (gpu/command_buffer/service/gl_context_mac.cc)

A shallow embedding of the Mac GL context classes, as the translation unit is
compiled without `UNIT_TEST` (the build in which the native calls exist).

* Native handles (`GLContextHandle`, `CGLPBufferObj`, `CGLPixelFormatObj`) are
  pointers; they are embedded as `Nat` with `NULL = 0`, so that the C++ test
  `if (context_)` reads `context_ ≠ NULL`.
* The CGL driver, the GL function-table initialiser and the accelerated surface
  are external collaborators.  Their behaviour is a parameter: a record of
  functions over an arbitrary world type `W`.  An out-parameter such as
  `&context_` is embedded as an extra argument (the content of the slot before
  the call) and an extra result (its content afterwards).
* Every call that crosses the boundary is appended to `Env.calls`, and every
  `DLOG` line to `Env.dlog`, so that statements such as "issues no native call"
  can be written down.
-/

namespace gpu

/-! ## Platform types and constants -/

abbrev GLContextHandle := Nat
abbrev CGLPBufferObj := Nat
abbrev CGLPixelFormatObj := Nat
abbrev CGLError := Nat

/-- The null pointer. -/
def NULL : Nat := 0

/-- OpenGL/CGLTypes.h: the success code of every CGL entry point. -/
def kCGLNoError : CGLError := 0

/-- OpenGL/CGLTypes.h: the pixel-format attribute asking for pbuffer support. -/
def kCGLPFAPBuffer : Nat := 90

/-- OpenGL/gl.h texture target used for the bootstrap pbuffer. -/
def GL_TEXTURE_2D : Nat := 0x0DE1

/-- OpenGL/gl.h colour format used for the bootstrap pbuffer. -/
def GL_RGBA : Nat := 0x1908

/-- The static attribute array of `PbufferGLContext::Initialize`. -/
def attribs : List Nat := [kCGLPFAPBuffer, 0]

/-! ## The boundary: calls, diagnostics, environment -/

/-- One call across the boundary of this file, with its by-value arguments. -/
inductive NativeCall where
  | CGLChoosePixelFormat (attribs : List Nat)
  | CGLCreateContext (pix : CGLPixelFormatObj) (share : GLContextHandle)
  | CGLDestroyPixelFormat (pix : CGLPixelFormatObj)
  | CGLCreatePBuffer (width height target internalFormat maxLevel : Nat)
  | CGLSetPBuffer (ctx : GLContextHandle) (pbuffer : CGLPBufferObj) (face level screen : Nat)
  | CGLGetCurrentContext
  | CGLSetCurrentContext (ctx : GLContextHandle)
  | CGLDestroyContext (ctx : GLContextHandle)
  | CGLDestroyPBuffer (pbuffer : CGLPBufferObj)
  | InitializeGLEW
  | surfaceInitialize
  | surfaceDestroy
  | surfaceMakeCurrent
  | surfaceContext
  deriving DecidableEq, Repr

/-- Severity of a `DLOG` line. -/
inductive Severity where
  | WARNING
  | ERROR
  deriving DecidableEq, Repr

/-- The world outside the object, the calls made so far (oldest first) and the
diagnostic lines written so far. -/
structure Env (W : Type) where
  world : W
  calls : List NativeCall
  dlog : List (Severity × String)

/-- The native graphics driver (CGL) and the GL function-table initialiser
`InitializeGLEW` (declared in gl_context.h); what they do is a parameter. -/
structure Driver (W : Type) where
  CGLChoosePixelFormat : List Nat → W → CGLError × CGLPixelFormatObj × W
  CGLCreateContext :
    CGLPixelFormatObj → GLContextHandle → GLContextHandle → W → CGLError × GLContextHandle × W
  CGLDestroyPixelFormat : CGLPixelFormatObj → W → W
  CGLCreatePBuffer : Nat → Nat → Nat → Nat → Nat → CGLPBufferObj → W → CGLError × CGLPBufferObj × W
  CGLSetPBuffer : GLContextHandle → CGLPBufferObj → Nat → Nat → Nat → W → CGLError × W
  CGLGetCurrentContext : W → GLContextHandle
  CGLSetCurrentContext : GLContextHandle → W → CGLError × W
  CGLDestroyContext : GLContextHandle → W → W
  CGLDestroyPBuffer : CGLPBufferObj → W → W
  InitializeGLEW : W → Bool × W

/-- The drawable surface behind a `ViewGLContext`.  Its class is declared in
app/surface/accelerated_surface_mac.h, outside this file; what its methods do
is a parameter. -/
structure AcceleratedSurface (W : Type) where
  Initialize : W → Bool × W
  Destroy : W → W
  MakeCurrent : W → Bool × W
  context : W → GLContextHandle

/-- `DLOG(severity) << message`. -/
def DLOG {W : Type} (s : Severity) (msg : String) (e : Env W) : Env W :=
  { e with dlog := e.dlog ++ [(s, msg)] }

/-- Record a call and move to the world it leaves behind. -/
def Env.step {W : Type} (e : Env W) (c : NativeCall) (w : W) : Env W :=
  { e with world := w, calls := e.calls ++ [c] }

/-! ## Objects -/

/-- ViewGLContext: a non-owning pointer to its surface. -/
structure ViewGLContext (W : Type) where
  surface_ : AcceleratedSurface W

/-- PbufferGLContext: the two owned native handles. -/
@[ext]
structure PbufferGLContext where
  context_ : GLContextHandle
  pbuffer_ : CGLPBufferObj
  deriving DecidableEq, Repr

/-- A `GLContext*` that is not null points to one of the two variants. -/
inductive GLContext (W : Type) where
  | view (c : ViewGLContext W)
  | pbuffer (c : PbufferGLContext)

/-- Modelled from the spec: the constructor of PbufferGLContext (declared in
gl_context.h, which is not among the sources) creates the object uninitialized,
with the context handle and the pbuffer handle both null. -/
def PbufferGLContext.new : PbufferGLContext :=
  { context_ := NULL, pbuffer_ := NULL }

/-! ## ViewGLContext -/

/-- ViewGLContext::Destroy. -/
def ViewGLContext.Destroy {W : Type} (self : ViewGLContext W) (e : Env W) : Env W :=
  e.step .surfaceDestroy (self.surface_.Destroy e.world)

/-- ViewGLContext::MakeCurrent. -/
def ViewGLContext.MakeCurrent {W : Type} (self : ViewGLContext W) (e : Env W) : Bool × Env W :=
  let r := self.surface_.MakeCurrent e.world
  (r.1, e.step .surfaceMakeCurrent r.2)

/-- ViewGLContext::GetHandle. -/
def ViewGLContext.GetHandle {W : Type} (self : ViewGLContext W) (e : Env W) :
    GLContextHandle × Env W :=
  (self.surface_.context e.world, e.step .surfaceContext e.world)

/-- ViewGLContext::Initialize. -/
def ViewGLContext.Initialize {W : Type} (d : Driver W) (self : ViewGLContext W)
    (multisampled : Bool) (e : Env W) : Bool × Env W :=
  let e := if multisampled then DLOG .WARNING "Multisampling not implemented." e else e
  let s := self.surface_.Initialize e.world
  let e := e.step .surfaceInitialize s.2
  if !s.1 then
    let e := DLOG .ERROR "Error initializing accelerated surface." e
    (false, e)
  else
    let m := self.MakeCurrent e
    let e := m.2
    if !m.1 then
      let e := self.Destroy e
      let e := DLOG .ERROR "Couldn't make context current for initialization." e
      (false, e)
    else
      let g := d.InitializeGLEW e.world
      let e := e.step .InitializeGLEW g.2
      if !g.1 then
        let e := self.Destroy e
        (false, e)
      else
        (true, e)

/-! ## PbufferGLContext -/

/-- PbufferGLContext::Destroy. -/
def PbufferGLContext.Destroy {W : Type} (d : Driver W) (self : PbufferGLContext) (e : Env W) :
    PbufferGLContext × Env W :=
  let r :=
    if self.context_ ≠ NULL then
      ({ self with context_ := NULL },
        e.step (.CGLDestroyContext self.context_) (d.CGLDestroyContext self.context_ e.world))
    else (self, e)
  let self := r.1
  let e := r.2
  if self.pbuffer_ ≠ NULL then
    ({ self with pbuffer_ := NULL },
      e.step (.CGLDestroyPBuffer self.pbuffer_) (d.CGLDestroyPBuffer self.pbuffer_ e.world))
  else (self, e)

/-- PbufferGLContext::MakeCurrent. -/
def PbufferGLContext.MakeCurrent {W : Type} (d : Driver W) (self : PbufferGLContext) (e : Env W) :
    Bool × PbufferGLContext × Env W :=
  let cur := d.CGLGetCurrentContext e.world
  let e := e.step .CGLGetCurrentContext e.world
  if cur ≠ self.context_ then
    let r := d.CGLSetCurrentContext self.context_ e.world
    let e := e.step (.CGLSetCurrentContext self.context_) r.2
    if r.1 ≠ kCGLNoError then
      let e := DLOG .ERROR "Unable to make gl context current." e
      (false, self, e)
    else (true, self, e)
  else (true, self, e)

/-- PbufferGLContext::GetHandle. -/
def PbufferGLContext.GetHandle (self : PbufferGLContext) : GLContextHandle :=
  self.context_

/-- The virtual call `shared_context->GetHandle()`. -/
def GLContext.GetHandle {W : Type} (c : GLContext W) (e : Env W) : GLContextHandle × Env W :=
  match c with
  | .view v => v.GetHandle e
  | .pbuffer p => (p.GetHandle, e)

/-- The first statements of PbufferGLContext::Initialize: `shared_handle` is
null, or what `shared_context->GetHandle()` returns when a context is given. -/
def sharedHandle {W : Type} (shared_context : Option (GLContext W)) (e : Env W) :
    GLContextHandle × Env W :=
  match shared_context with
  | some c => c.GetHandle e
  | none => (NULL, e)

/-- PbufferGLContext::Initialize. -/
def PbufferGLContext.Initialize {W : Type} (d : Driver W) (self : PbufferGLContext)
    (shared_context : Option (GLContext W)) (e : Env W) : Bool × PbufferGLContext × Env W :=
  -- Get the shared context handle.
  let sh := sharedHandle shared_context e
  let shared_handle := sh.1
  let e := sh.2
  -- Create a 1x1 pbuffer and associated context to bootstrap things.
  let c := d.CGLChoosePixelFormat attribs e.world
  let pixel_format := c.2.1
  let e := e.step (.CGLChoosePixelFormat attribs) c.2.2
  if c.1 ≠ kCGLNoError then
    let e := DLOG .ERROR "Error choosing pixel format." e
    let r := self.Destroy d e
    (false, r.1, r.2)
  else if pixel_format = NULL then
    (false, self, e)
  else
    let k := d.CGLCreateContext pixel_format shared_handle self.context_ e.world
    let res := k.1
    let self := { self with context_ := k.2.1 }
    let e := e.step (.CGLCreateContext pixel_format shared_handle) k.2.2
    let e := e.step (.CGLDestroyPixelFormat pixel_format) (d.CGLDestroyPixelFormat pixel_format e.world)
    if res ≠ kCGLNoError then
      let e := DLOG .ERROR "Error creating context." e
      let r := self.Destroy d e
      (false, r.1, r.2)
    else
      let p := d.CGLCreatePBuffer 1 1 GL_TEXTURE_2D GL_RGBA 0 self.pbuffer_ e.world
      let self := { self with pbuffer_ := p.2.1 }
      let e := e.step (.CGLCreatePBuffer 1 1 GL_TEXTURE_2D GL_RGBA 0) p.2.2
      if p.1 ≠ kCGLNoError then
        let e := DLOG .ERROR "Error creating pbuffer." e
        let r := self.Destroy d e
        (false, r.1, r.2)
      else
        let s := d.CGLSetPBuffer self.context_ self.pbuffer_ 0 0 0 e.world
        let e := e.step (.CGLSetPBuffer self.context_ self.pbuffer_ 0 0 0) s.2
        if s.1 ≠ kCGLNoError then
          let e := DLOG .ERROR "Error attaching pbuffer to context." e
          let r := self.Destroy d e
          (false, r.1, r.2)
        else
          let m := self.MakeCurrent d e
          let self := m.2.1
          let e := m.2.2
          if !m.1 then
            let r := self.Destroy d e
            let e := DLOG .ERROR "Couldn't make context current for initialization." r.2
            (false, r.1, e)
          else
            let g := d.InitializeGLEW e.world
            let e := e.step .InitializeGLEW g.2
            if !g.1 then
              let r := self.Destroy d e
              (false, r.1, r.2)
            else
              (true, self, e)

/-- The type gfx::Size: a width and a height. -/
structure Size where
  width : Int
  height : Int
  deriving DecidableEq, Repr

/-- The way a call ends when it does not return: a fatal assertion, with the
message streamed into it. -/
inductive Fault where
  | fatal (message : String)
  deriving DecidableEq, Repr

/-- Modelled from the spec: NOTREACHED is a macro of
gpu/command_buffer/common/logging.h, which is not among the sources.  The spec
calls reaching it a programming-error fault, a fatal assertion that terminates
or aborts rather than returning; so it ends the call with a fault. -/
def NOTREACHED (message : String) : Except Fault Unit :=
  Except.error (Fault.fatal message)

/-- PbufferGLContext::SwapBuffers. -/
def PbufferGLContext.SwapBuffers (_self : PbufferGLContext) : Except Fault Unit :=
  NOTREACHED "Cannot call SwapBuffers on a PbufferGLContext."

/-- PbufferGLContext::GetSize. -/
def PbufferGLContext.GetSize (_self : PbufferGLContext) : Except Fault Size := do
  NOTREACHED "Should not be requesting size of a PbufferGLContext."
  pure (Size.mk 1 1)

/-! ## The drawable surface, as the spec describes it -/

/-- Modelled from the spec: the state of the drawable surface, whose class
AcceleratedSurface (app/surface/accelerated_surface_mac.h and its
implementation) is not among the sources.  The spec gives a rendering context
the validity states uninitialized, initialized and destroyed, says the
surface-backed context has no native handle of its own beyond what the surface
exposes, and has GetHandle return null on a never-initialized or destroyed
context.  So the surface's state holds the handle it exposes, null unless the
surface is initialized, next to the rest of the world. -/
structure SurfaceWorld (W : Type) where
  handle : GLContextHandle
  rest : W

/-- Modelled from the spec: a surface whose owner has created it and not yet
initialized it ("both variants are created uninitialized") exposes no handle. -/
def SurfaceWorld.fresh {W : Type} (w : W) : SurfaceWorld W :=
  { handle := NULL, rest := w }

/-- Modelled from the spec: the methods of the drawable surface (class
AcceleratedSurface, not among the sources), with the section on external
interfaces giving their signatures.  What initialization, destruction and
activation do to the rest of the world, whether they succeed and which handle
is created are parameters; the handle the surface exposes follows the lifecycle
of the spec: a successful Initialize exposes the created handle, a failed one
changes nothing ("returns null if never successfully initialized"), Destroy
leaves no handle ("on a never-initialized or already-destroyed context returns
null"), and MakeCurrent and the accessor leave the handle as it is. -/
def specSurface {W : Type} (init : W → Bool × GLContextHandle × W) (destroy : W → W)
    (makeCurrent : GLContextHandle → W → Bool × W) : AcceleratedSurface (SurfaceWorld W) where
  Initialize s :=
    let r := init s.rest
    if r.1 then (true, { handle := r.2.1, rest := r.2.2 })
    else (false, { handle := s.handle, rest := r.2.2 })
  Destroy s := { handle := NULL, rest := destroy s.rest }
  MakeCurrent s :=
    let r := makeCurrent s.handle s.rest
    (r.1, { handle := s.handle, rest := r.2 })
  context s := s.handle

/-- A ViewGLContext over the surface of the spec. -/
def specView {W : Type} (init : W → Bool × GLContextHandle × W) (destroy : W → W)
    (makeCurrent : GLContextHandle → W → Bool × W) : ViewGLContext (SurfaceWorld W) :=
  { surface_ := specSurface init destroy makeCurrent }

/-! ## Sample collaborators for concrete runs -/

/-- The world of the sample collaborators: the globally current context and
the context handle the sample surface holds. -/
structure SampleWorld where
  current : GLContextHandle
  surface : GLContextHandle
  deriving DecidableEq, Repr

/-- A scripted driver.  Step `fail` of `PbufferGLContext::Initialize` fails
(1: pixel-format selection reports an error, 2: it returns no format,
3: context creation, 4: pbuffer allocation, 5: pbuffer attachment,
6: set-current, 7: function table); with any other value every call succeeds.
As CGL does, a failed creation nulls the out-parameter, and a successful
set-current makes its argument current. -/
def scriptedDriver (fail : Nat) : Driver SampleWorld where
  CGLChoosePixelFormat _ w :=
    (if fail = 1 then 10008 else kCGLNoError, if fail = 2 then NULL else 11, w)
  CGLCreateContext _ _ _ w := if fail = 3 then (10016, NULL, w) else (kCGLNoError, 21, w)
  CGLDestroyPixelFormat _ w := w
  CGLCreatePBuffer _ _ _ _ _ _ w := if fail = 4 then (10016, NULL, w) else (kCGLNoError, 31, w)
  CGLSetPBuffer _ _ _ _ _ w := (if fail = 5 then 10004 else kCGLNoError, w)
  CGLGetCurrentContext w := w.current
  CGLSetCurrentContext h w := if fail = 6 then (10004, w) else (kCGLNoError, { w with current := h })
  CGLDestroyContext h w := if w.current = h then { w with current := NULL } else w
  CGLDestroyPBuffer _ w := w
  InitializeGLEW w := (decide (fail ≠ 7), w)

/-- A scripted surface.  Its Initialize fails when `fail = 1` and otherwise
creates the context 41; its MakeCurrent fails when `fail = 2`; its Destroy
gives up what it holds but keeps the handle in its field. -/
def scriptedSurface (fail : Nat) : AcceleratedSurface SampleWorld where
  Initialize w := if fail = 1 then (false, w) else (true, { w with surface := 41 })
  Destroy w := if w.current = w.surface then { w with current := NULL } else w
  MakeCurrent w := if fail = 2 then (false, w) else (true, { w with current := w.surface })
  context w := w.surface

/-- A ViewGLContext over the scripted surface. -/
def scriptedView (fail : Nat) : ViewGLContext SampleWorld :=
  { surface_ := scriptedSurface fail }

/-- A PbufferGLContext that holds a context and a pbuffer. -/
def heldContext : PbufferGLContext :=
  { context_ := 5, pbuffer_ := 6 }

/-- The environment before anything has been called: no current context, and
a surface that holds no context yet. -/
def Env.start : Env SampleWorld :=
  { world := { current := NULL, surface := NULL }, calls := [], dlog := [] }

/-- Initialize on a new object, without a shared context, against the scripted
driver that fails at step `fail`. -/
def scriptedRun (fail : Nat) : Bool × PbufferGLContext × Env SampleWorld :=
  PbufferGLContext.new.Initialize (scriptedDriver fail) none Env.start

/-- A driver over any world on which every native call succeeds and leaves the
world alone; the function-table initialiser returns `glew`. -/
def quietDriver {W : Type} (glew : Bool) : Driver W where
  CGLChoosePixelFormat _ w := (kCGLNoError, 11, w)
  CGLCreateContext _ _ _ w := (kCGLNoError, 21, w)
  CGLDestroyPixelFormat _ w := w
  CGLCreatePBuffer _ _ _ _ _ _ w := (kCGLNoError, 31, w)
  CGLSetPBuffer _ _ _ _ _ w := (kCGLNoError, w)
  CGLGetCurrentContext _ := NULL
  CGLSetCurrentContext _ w := (kCGLNoError, w)
  CGLDestroyContext _ w := w
  CGLDestroyPBuffer _ w := w
  InitializeGLEW w := (glew, w)

/-- The environment in which a surface of the spec has just been created. -/
def Env.fresh {W : Type} (w : W) : Env (SurfaceWorld W) :=
  { world := SurfaceWorld.fresh w, calls := [], dlog := [] }

/-! ## Shared facts about Destroy and Initialize -/

theorem Destroy_fst {W : Type} (d : Driver W) (self : PbufferGLContext) (e : Env W) :
    (self.Destroy d e).1 = PbufferGLContext.new := by
  obtain ⟨c, p⟩ := self
  by_cases hc : c = NULL <;> by_cases hp : p = NULL <;>
    simp [PbufferGLContext.Destroy, PbufferGLContext.new, hc, hp]

theorem Destroy_new {W : Type} (d : Driver W) (e : Env W) :
    PbufferGLContext.new.Destroy d e = (PbufferGLContext.new, e) := by
  simp [PbufferGLContext.Destroy, PbufferGLContext.new]

/-- When Initialize fails, either Destroy has run, or the object is untouched
(the path on which pixel-format selection returns no format). -/
theorem Initialize_false_obj {W : Type} (d : Driver W) (self : PbufferGLContext)
    (shared_context : Option (GLContext W)) (e : Env W)
    (h : (self.Initialize d shared_context e).1 = false) :
    (self.Initialize d shared_context e).2.1 = PbufferGLContext.new ∨
    (self.Initialize d shared_context e).2.1 = self := by
  unfold PbufferGLContext.Initialize at h ⊢
  simp only [] at h ⊢
  split_ifs at h ⊢ <;> simp_all [Destroy_fst]

/-- MakeCurrent on the context that is already current: one query, no switch. -/
theorem MakeCurrent_of_current {W : Type} (d : Driver W) (self : PbufferGLContext) (e : Env W)
    (h : d.CGLGetCurrentContext e.world = self.context_) :
    self.MakeCurrent d e = (true, self, e.step NativeCall.CGLGetCurrentContext e.world) := by
  simp [PbufferGLContext.MakeCurrent, Env.step, h]

theorem Env.step_world {W : Type} (e : Env W) (c : NativeCall) (w : W) :
    (e.step c w).world = w := rfl

/-- MakeCurrent never changes the object. -/
theorem MakeCurrent_obj {W : Type} (d : Driver W) (self : PbufferGLContext) (e : Env W) :
    (self.MakeCurrent d e).2.1 = self := by
  unfold PbufferGLContext.MakeCurrent
  simp only []
  split_ifs <;> rfl

/-- After a successful MakeCurrent the object's context is the current one,
provided a successful set-current call makes its argument current. -/
theorem MakeCurrent_true_current {W : Type} (d : Driver W) (self : PbufferGLContext) (e : Env W)
    (hset : ∀ h w, (d.CGLSetCurrentContext h w).1 = kCGLNoError →
      d.CGLGetCurrentContext (d.CGLSetCurrentContext h w).2 = h)
    (hm : (self.MakeCurrent d e).1 = true) :
    d.CGLGetCurrentContext (self.MakeCurrent d e).2.2.world = self.context_ := by
  by_cases h1 : d.CGLGetCurrentContext e.world = self.context_
  · simp [PbufferGLContext.MakeCurrent, Env.step, h1]
  · by_cases h2 : (d.CGLSetCurrentContext self.context_ e.world).1 = kCGLNoError
    · simp only [PbufferGLContext.MakeCurrent, Env.step, ne_eq, h1, h2, not_true_eq_false,
        not_false_eq_true, if_true, if_false]
      exact hset _ _ h2
    · simp [PbufferGLContext.MakeCurrent, Env.step, h1, h2] at hm

/-- After a successful Initialize the object's context is the current one,
provided a successful set-current call makes its argument current and the
function-table initialiser leaves the current context alone. -/
theorem Initialize_true_current {W : Type} (d : Driver W) (self : PbufferGLContext)
    (shared_context : Option (GLContext W)) (e : Env W)
    (hset : ∀ h w, (d.CGLSetCurrentContext h w).1 = kCGLNoError →
      d.CGLGetCurrentContext (d.CGLSetCurrentContext h w).2 = h)
    (hglew : ∀ w, d.CGLGetCurrentContext (d.InitializeGLEW w).2 = d.CGLGetCurrentContext w)
    (hinit : (self.Initialize d shared_context e).1 = true) :
    d.CGLGetCurrentContext (self.Initialize d shared_context e).2.2.world =
      (self.Initialize d shared_context e).2.1.context_ := by
  unfold PbufferGLContext.Initialize at hinit ⊢
  simp only [] at hinit ⊢
  split_ifs at hinit ⊢ with h1 h2 h3 h4 h5 h6 h7
  all_goals try (simp at hinit)
  rw [Env.step_world, hglew, MakeCurrent_obj]
  exact MakeCurrent_true_current d _ _ hset (by simpa using h6)

/-! ## Theorems -/

/-- C1: for a newly constructed PbufferGLContext and every behaviour of the
driver, when Initialize returns false both handles are null afterwards, and a
following Destroy issues no call at all and leaves the object and the
environment unchanged, whichever step failed. -/
theorem Initialize_failure_leaves_no_handles {W : Type} (d : Driver W)
    (shared_context : Option (GLContext W)) (e : Env W)
    (hfail : (PbufferGLContext.new.Initialize d shared_context e).1 = false) :
    (PbufferGLContext.new.Initialize d shared_context e).2.1.context_ = NULL ∧
    (PbufferGLContext.new.Initialize d shared_context e).2.1.pbuffer_ = NULL ∧
    (PbufferGLContext.new.Initialize d shared_context e).2.1.Destroy d
        (PbufferGLContext.new.Initialize d shared_context e).2.2 =
      ((PbufferGLContext.new.Initialize d shared_context e).2.1,
        (PbufferGLContext.new.Initialize d shared_context e).2.2) := by
  have hobj : (PbufferGLContext.new.Initialize d shared_context e).2.1 = PbufferGLContext.new := by
    rcases Initialize_false_obj d _ shared_context e hfail with h | h <;> exact h
  rw [hobj]
  exact ⟨rfl, rfl, Destroy_new d _⟩

/-- C1 at concrete inputs: the scripted driver fails at each of the seven
steps in turn (for pixel-format selection, both by an error and by no format). -/
theorem Initialize_failure_leaves_no_handles_witness :
    (scriptedRun 1).1 = false ∧ (scriptedRun 1).2.1 = PbufferGLContext.new ∧
    (scriptedRun 2).1 = false ∧ (scriptedRun 2).2.1 = PbufferGLContext.new ∧
    (scriptedRun 3).1 = false ∧ (scriptedRun 3).2.1 = PbufferGLContext.new ∧
    (scriptedRun 4).1 = false ∧ (scriptedRun 4).2.1 = PbufferGLContext.new ∧
    (scriptedRun 5).1 = false ∧ (scriptedRun 5).2.1 = PbufferGLContext.new ∧
    (scriptedRun 6).1 = false ∧ (scriptedRun 6).2.1 = PbufferGLContext.new ∧
    (scriptedRun 7).1 = false ∧ (scriptedRun 7).2.1 = PbufferGLContext.new ∧
    (scriptedRun 3).2.1.Destroy (scriptedDriver 3) (scriptedRun 3).2.2 =
      ((scriptedRun 3).2.1, (scriptedRun 3).2.2) :=
  have h1 := Initialize_failure_leaves_no_handles (scriptedDriver 1) none Env.start rfl
  have h2 := Initialize_failure_leaves_no_handles (scriptedDriver 2) none Env.start rfl
  have h3 := Initialize_failure_leaves_no_handles (scriptedDriver 3) none Env.start rfl
  have h4 := Initialize_failure_leaves_no_handles (scriptedDriver 4) none Env.start rfl
  have h5 := Initialize_failure_leaves_no_handles (scriptedDriver 5) none Env.start rfl
  have h6 := Initialize_failure_leaves_no_handles (scriptedDriver 6) none Env.start rfl
  have h7 := Initialize_failure_leaves_no_handles (scriptedDriver 7) none Env.start rfl
  ⟨rfl, PbufferGLContext.ext h1.1 h1.2.1, rfl, PbufferGLContext.ext h2.1 h2.2.1,
    rfl, PbufferGLContext.ext h3.1 h3.2.1, rfl, PbufferGLContext.ext h4.1 h4.2.1,
    rfl, PbufferGLContext.ext h5.1 h5.2.1, rfl, PbufferGLContext.ext h6.1 h6.2.1,
    rfl, PbufferGLContext.ext h7.1 h7.2.1, h3.2.2⟩

/-- C4: on a new object, when pixel-format selection, context creation and
pbuffer allocation succeed (no error, and a non-null format, context and
pbuffer) but attaching the pbuffer reports an error, Initialize returns false
with both handles null, and the calls it made are exactly: the three
allocations with the release of the pixel format, the failed attachment, one
destroy-context call on the created context and one destroy-pbuffer call on the
created pbuffer.  Neither the current context nor the function table is
touched. -/
theorem Initialize_attach_failure_rolls_back {W : Type} (d : Driver W)
    (shared_context : Option (GLContext W)) (e : Env W)
    (pixel_format : CGLPixelFormatObj) (context : GLContextHandle) (pbuffer : CGLPBufferObj)
    (err : CGLError) (w1 w2 w3 w4 : W)
    (hchoose : d.CGLChoosePixelFormat attribs (sharedHandle shared_context e).2.world =
      (kCGLNoError, pixel_format, w1))
    (hformat : pixel_format ≠ NULL)
    (hcreate : d.CGLCreateContext pixel_format (sharedHandle shared_context e).1 NULL w1 =
      (kCGLNoError, context, w2))
    (hcontext : context ≠ NULL)
    (hpbuffer : d.CGLCreatePBuffer 1 1 GL_TEXTURE_2D GL_RGBA 0 NULL
      (d.CGLDestroyPixelFormat pixel_format w2) = (kCGLNoError, pbuffer, w3))
    (hpbuffer_set : pbuffer ≠ NULL)
    (hattach : d.CGLSetPBuffer context pbuffer 0 0 0 w3 = (err, w4))
    (herr : err ≠ kCGLNoError) :
    (PbufferGLContext.new.Initialize d shared_context e).1 = false ∧
    (PbufferGLContext.new.Initialize d shared_context e).2.1 = PbufferGLContext.new ∧
    (PbufferGLContext.new.Initialize d shared_context e).2.2.calls =
      (sharedHandle shared_context e).2.calls ++
        [NativeCall.CGLChoosePixelFormat attribs,
         NativeCall.CGLCreateContext pixel_format (sharedHandle shared_context e).1,
         NativeCall.CGLDestroyPixelFormat pixel_format,
         NativeCall.CGLCreatePBuffer 1 1 GL_TEXTURE_2D GL_RGBA 0,
         NativeCall.CGLSetPBuffer context pbuffer 0 0 0,
         NativeCall.CGLDestroyContext context,
         NativeCall.CGLDestroyPBuffer pbuffer] ∧
    (PbufferGLContext.new.Initialize d shared_context e).2.2.world =
      d.CGLDestroyPBuffer pbuffer (d.CGLDestroyContext context w4) := by
  have hnew : PbufferGLContext.new.context_ = NULL ∧ PbufferGLContext.new.pbuffer_ = NULL :=
    ⟨rfl, rfl⟩
  simp [PbufferGLContext.Initialize, PbufferGLContext.Destroy, Env.step, DLOG, hnew.1, hnew.2,
    hchoose, hformat, hcreate, hcontext, hpbuffer, hpbuffer_set, hattach, herr,
    PbufferGLContext.new]

/-- C4 at a concrete input: the scripted driver whose attachment fails. -/
theorem Initialize_attach_failure_rolls_back_witness :
    (scriptedRun 5).1 = false ∧
    (scriptedRun 5).2.1 = PbufferGLContext.new ∧
    (scriptedRun 5).2.2.calls =
      [NativeCall.CGLChoosePixelFormat attribs,
       NativeCall.CGLCreateContext 11 NULL,
       NativeCall.CGLDestroyPixelFormat 11,
       NativeCall.CGLCreatePBuffer 1 1 GL_TEXTURE_2D GL_RGBA 0,
       NativeCall.CGLSetPBuffer 21 31 0 0 0,
       NativeCall.CGLDestroyContext 21,
       NativeCall.CGLDestroyPBuffer 31] ∧
    (scriptedRun 5).2.2.world = Env.start.world :=
  Initialize_attach_failure_rolls_back (scriptedDriver 5) none Env.start 11 21 31 10004
    Env.start.world Env.start.world Env.start.world Env.start.world
    rfl (by decide) rfl (by decide) rfl (by decide) rfl (by decide)

/-- C5: from every state of the two handles, Destroy issues a release of the
context handle exactly when it is set, then a release of the pbuffer handle
exactly when it is set, each decided on its own handle only, and leaves both
handles null; a second Destroy right after the first issues no native call and
leaves the object and the environment unchanged. -/
theorem Destroy_releases_set_handles_and_is_idempotent {W : Type} (d : Driver W)
    (self : PbufferGLContext) (e : Env W) :
    (self.Destroy d e).1.context_ = NULL ∧
    (self.Destroy d e).1.pbuffer_ = NULL ∧
    (self.Destroy d e).2.calls =
      e.calls ++ (if self.context_ ≠ NULL then [NativeCall.CGLDestroyContext self.context_] else [])
        ++ (if self.pbuffer_ ≠ NULL then [NativeCall.CGLDestroyPBuffer self.pbuffer_] else []) ∧
    (self.Destroy d e).2.world =
      (if self.pbuffer_ ≠ NULL then d.CGLDestroyPBuffer self.pbuffer_ else id)
        ((if self.context_ ≠ NULL then d.CGLDestroyContext self.context_ else id) e.world) ∧
    (self.Destroy d e).2.dlog = e.dlog ∧
    (self.Destroy d e).1.Destroy d (self.Destroy d e).2 = self.Destroy d e := by
  obtain ⟨c, p⟩ := self
  by_cases hc : c = NULL <;> by_cases hp : p = NULL <;>
    simp [PbufferGLContext.Destroy, Env.step, hc, hp]

/-- C6: MakeCurrent never changes the object's handles.  When the globally
current context equals the object's handle it returns true and issues no
set-current call (the only call is the query of the current context).
Otherwise it issues exactly one set-current call, with the object's handle, and
returns true exactly when that call reports no error. -/
theorem MakeCurrent_switches_only_when_needed {W : Type} (d : Driver W)
    (self : PbufferGLContext) (e : Env W) :
    (self.MakeCurrent d e).2.1 = self ∧
    (d.CGLGetCurrentContext e.world = self.context_ →
      (self.MakeCurrent d e).1 = true ∧
      (self.MakeCurrent d e).2.2.calls = e.calls ++ [NativeCall.CGLGetCurrentContext] ∧
      (self.MakeCurrent d e).2.2.world = e.world) ∧
    (d.CGLGetCurrentContext e.world ≠ self.context_ →
      (self.MakeCurrent d e).2.2.calls =
        e.calls ++ [NativeCall.CGLGetCurrentContext, NativeCall.CGLSetCurrentContext self.context_] ∧
      (self.MakeCurrent d e).2.2.world = (d.CGLSetCurrentContext self.context_ e.world).2 ∧
      ((self.MakeCurrent d e).1 = true ↔
        (d.CGLSetCurrentContext self.context_ e.world).1 = kCGLNoError)) := by
  refine ⟨?_, ?_, ?_⟩
  · unfold PbufferGLContext.MakeCurrent
    simp only []
    split_ifs <;> rfl
  · intro h
    simp [PbufferGLContext.MakeCurrent, Env.step, h]
  · intro h
    by_cases hs : (d.CGLSetCurrentContext self.context_ e.world).1 = kCGLNoError <;>
      simp [PbufferGLContext.MakeCurrent, Env.step, DLOG, h, hs]

/-- C3: on a new object Initialize returns true exactly when pixel-format
selection reports no error and returns a format, context creation, pbuffer
allocation and attachment report no error, MakeCurrent returns true and the
function-table initialiser returns true.  GetHandle then returns the handle
written by context creation, which is non-null whenever the driver's
successful context creation yields a non-null handle. -/
theorem Initialize_true_iff_all_steps_succeed {W : Type} (d : Driver W)
    (shared_context : Option (GLContext W)) (e : Env W) :
    let sh := sharedHandle shared_context e
    let c := d.CGLChoosePixelFormat attribs sh.2.world
    let k := d.CGLCreateContext c.2.1 sh.1 NULL c.2.2
    let w := d.CGLDestroyPixelFormat c.2.1 k.2.2
    let p := d.CGLCreatePBuffer 1 1 GL_TEXTURE_2D GL_RGBA 0 NULL w
    let s := d.CGLSetPBuffer k.2.1 p.2.1 0 0 0 p.2.2
    let m := PbufferGLContext.MakeCurrent d { context_ := k.2.1, pbuffer_ := p.2.1 }
      (((((sh.2.step (NativeCall.CGLChoosePixelFormat attribs) c.2.2).step
        (NativeCall.CGLCreateContext c.2.1 sh.1) k.2.2).step
        (NativeCall.CGLDestroyPixelFormat c.2.1) w).step
        (NativeCall.CGLCreatePBuffer 1 1 GL_TEXTURE_2D GL_RGBA 0) p.2.2).step
        (NativeCall.CGLSetPBuffer k.2.1 p.2.1 0 0 0) s.2)
    let g := d.InitializeGLEW m.2.2.world
    let r := PbufferGLContext.new.Initialize d shared_context e
    (r.1 = true ↔
      c.1 = kCGLNoError ∧ c.2.1 ≠ NULL ∧ k.1 = kCGLNoError ∧ p.1 = kCGLNoError ∧
        s.1 = kCGLNoError ∧ m.1 = true ∧ g.1 = true) ∧
    (r.1 = true → r.2.1.GetHandle = k.2.1) ∧
    (r.1 = true →
      (∀ pix share old w0, (d.CGLCreateContext pix share old w0).1 = kCGLNoError →
        (d.CGLCreateContext pix share old w0).2.1 ≠ NULL) →
      r.2.1.GetHandle ≠ NULL) := by
  intro sh c k w p s m g r
  have key : (r.1 = true ↔
      c.1 = kCGLNoError ∧ c.2.1 ≠ NULL ∧ k.1 = kCGLNoError ∧ p.1 = kCGLNoError ∧
        s.1 = kCGLNoError ∧ m.1 = true ∧ g.1 = true) ∧
      (r.1 = true → r.2.1.GetHandle = k.2.1) := by
    simp only [r, m, g, s, p, w, k, c, sh]
    unfold PbufferGLContext.Initialize
    simp only [PbufferGLContext.new, PbufferGLContext.GetHandle, Env.step_world]
    split_ifs <;> simp_all [MakeCurrent_obj]
  refine ⟨key.1, key.2, ?_⟩
  intro hr hcontract
  rw [key.2 hr]
  exact hcontract _ _ _ _ ((key.1.mp hr).2.2.1)

/-- C3 at a concrete input: against the scripted driver on which every step
succeeds, Initialize returns true and GetHandle is the created context 21. -/
theorem Initialize_true_iff_all_steps_succeed_witness :
    (scriptedRun 0).1 = true ∧ (scriptedRun 0).2.1.GetHandle = 21 ∧
    (scriptedRun 0).2.1.GetHandle ≠ NULL :=
  ⟨rfl, (Initialize_true_iff_all_steps_succeed (scriptedDriver 0) none Env.start).2.1 rfl,
    (Initialize_true_iff_all_steps_succeed (scriptedDriver 0) none Env.start).2.2 rfl
      (by intro pix share old w0 _; simp [scriptedDriver, NULL])⟩

/-- C7: with a driver whose successful set-current call makes its argument
the current context, and a function-table initialiser that leaves the current
context alone, after Initialize has returned true two MakeCurrent calls in a
row both return true, and neither issues a set-current call: each only queries
the current context and leaves the world as it was. -/
theorem MakeCurrent_twice_after_Initialize {W : Type} (d : Driver W) (self : PbufferGLContext)
    (shared_context : Option (GLContext W)) (e : Env W)
    (hset : ∀ h w, (d.CGLSetCurrentContext h w).1 = kCGLNoError →
      d.CGLGetCurrentContext (d.CGLSetCurrentContext h w).2 = h)
    (hglew : ∀ w, d.CGLGetCurrentContext (d.InitializeGLEW w).2 = d.CGLGetCurrentContext w)
    (hinit : (self.Initialize d shared_context e).1 = true) :
    let r := self.Initialize d shared_context e
    let m1 := r.2.1.MakeCurrent d r.2.2
    let m2 := m1.2.1.MakeCurrent d m1.2.2
    m1.1 = true ∧ m2.1 = true ∧
    m1.2.1 = r.2.1 ∧ m2.2.1 = r.2.1 ∧
    m1.2.2.calls = r.2.2.calls ++ [NativeCall.CGLGetCurrentContext] ∧
    m2.2.2.calls = m1.2.2.calls ++ [NativeCall.CGLGetCurrentContext] ∧
    m2.2.2.world = r.2.2.world := by
  intro r m1 m2
  have hcur := Initialize_true_current d self shared_context e hset hglew hinit
  have h1 : m1 = (true, r.2.1, r.2.2.step NativeCall.CGLGetCurrentContext r.2.2.world) :=
    MakeCurrent_of_current d r.2.1 r.2.2 hcur
  have h2 : m2 = (true, r.2.1,
      (r.2.2.step NativeCall.CGLGetCurrentContext r.2.2.world).step
        NativeCall.CGLGetCurrentContext r.2.2.world) := by
    simp only [m2, h1]
    exact MakeCurrent_of_current d r.2.1 _ hcur
  rw [h2, h1]
  simp [Env.step]

/-- C7 at a concrete input: the scripted driver on which every step succeeds. -/
theorem MakeCurrent_twice_after_Initialize_witness :
    (scriptedRun 0).1 = true ∧
    ((scriptedRun 0).2.1.MakeCurrent (scriptedDriver 0) (scriptedRun 0).2.2).1 = true ∧
    ((scriptedRun 0).2.1.MakeCurrent (scriptedDriver 0)
      ((scriptedRun 0).2.1.MakeCurrent (scriptedDriver 0) (scriptedRun 0).2.2).2.2).1 = true :=
  have h := MakeCurrent_twice_after_Initialize (scriptedDriver 0) PbufferGLContext.new none
    Env.start (by intro h w _; simp [scriptedDriver]) (by intro w; rfl) rfl
  ⟨rfl, h.1, h.2.1⟩

/-- C8: ViewGLContext::Initialize returns true exactly when the surface's
Initialize, then the surface's MakeCurrent, then the function-table initialiser
all return true, each attempted only after the previous one succeeded.  When
the surface's Initialize fails nothing else is called; when MakeCurrent or the
function-table initialiser fails the surface's Destroy is called exactly once.
The multisampled flag changes neither the result, nor the calls, nor the world. -/
theorem ViewGLContext_Initialize_gates_each_step {W : Type} (d : Driver W)
    (self : ViewGLContext W) (multisampled : Bool) (e : Env W) :
    let s := self.surface_.Initialize e.world
    let m := self.surface_.MakeCurrent s.2
    let g := d.InitializeGLEW m.2
    let r := self.Initialize d multisampled e
    (r.1 = true ↔ s.1 = true ∧ m.1 = true ∧ g.1 = true) ∧
    (s.1 = false →
      r.1 = false ∧ r.2.world = s.2 ∧
      r.2.calls = e.calls ++ [NativeCall.surfaceInitialize]) ∧
    (s.1 = true → m.1 = false →
      r.1 = false ∧ r.2.world = self.surface_.Destroy m.2 ∧
      r.2.calls = e.calls ++
        [NativeCall.surfaceInitialize, NativeCall.surfaceMakeCurrent,
         NativeCall.surfaceDestroy]) ∧
    (s.1 = true → m.1 = true → g.1 = false →
      r.1 = false ∧ r.2.world = self.surface_.Destroy g.2 ∧
      r.2.calls = e.calls ++
        [NativeCall.surfaceInitialize, NativeCall.surfaceMakeCurrent,
         NativeCall.InitializeGLEW, NativeCall.surfaceDestroy]) ∧
    (s.1 = true → m.1 = true → g.1 = true →
      r.2.world = g.2 ∧
      r.2.calls = e.calls ++
        [NativeCall.surfaceInitialize, NativeCall.surfaceMakeCurrent,
         NativeCall.InitializeGLEW]) ∧
    (self.Initialize d true e).1 = (self.Initialize d false e).1 ∧
    (self.Initialize d true e).2.world = (self.Initialize d false e).2.world ∧
    (self.Initialize d true e).2.calls = (self.Initialize d false e).2.calls := by
  intro s m g r
  cases hs : s.1 <;> cases hm : m.1 <;> cases hg : g.1 <;> cases multisampled <;>
    simp only [s, m, g] at hs hm hg <;>
    simp [r, s, m, g, ViewGLContext.Initialize, ViewGLContext.MakeCurrent,
      ViewGLContext.Destroy, Env.step, DLOG, hs, hm, hg]

/-- C8 at concrete inputs: over the scripted surface whose Initialize fails,
the only call is the surface's Initialize; over the one whose MakeCurrent
fails, the surface is destroyed once. -/
theorem ViewGLContext_Initialize_gates_each_step_witness :
    ((scriptedView 1).Initialize (scriptedDriver 0) true Env.start).1 = false ∧
    ((scriptedView 1).Initialize (scriptedDriver 0) true Env.start).2.calls =
      [NativeCall.surfaceInitialize] ∧
    ((scriptedView 2).Initialize (scriptedDriver 0) false Env.start).2.calls =
      [NativeCall.surfaceInitialize, NativeCall.surfaceMakeCurrent,
       NativeCall.surfaceDestroy] :=
  have h1 := (ViewGLContext_Initialize_gates_each_step (scriptedDriver 0) (scriptedView 1) true
    Env.start).2.1 rfl
  have h2 := (ViewGLContext_Initialize_gates_each_step (scriptedDriver 0) (scriptedView 2) false
    Env.start).2.2.1 rfl rfl
  ⟨h1.1, h1.2.2, h2.2.2⟩

/-- C2, evaluated on an object that holds a context 5 and a pbuffer 6.  When
pixel-format selection reports an error, Initialize runs Destroy: both handles
are released and null.  When it reports no error but returns no format,
Initialize returns false without running Destroy: no release call is made and
the object still holds both handles. -/
theorem Initialize_no_pixel_format_skips_Destroy :
    (heldContext.Initialize (scriptedDriver 1) none Env.start).1 = false ∧
    (heldContext.Initialize (scriptedDriver 1) none Env.start).2.1 = PbufferGLContext.new ∧
    (heldContext.Initialize (scriptedDriver 1) none Env.start).2.2.calls =
      [NativeCall.CGLChoosePixelFormat attribs, NativeCall.CGLDestroyContext 5,
       NativeCall.CGLDestroyPBuffer 6] ∧
    (heldContext.Initialize (scriptedDriver 2) none Env.start).1 = false ∧
    (heldContext.Initialize (scriptedDriver 2) none Env.start).2.1 = heldContext ∧
    (heldContext.Initialize (scriptedDriver 2) none Env.start).2.2.calls =
      [NativeCall.CGLChoosePixelFormat attribs] :=
  ⟨rfl, rfl, rfl, rfl, rfl, rfl⟩

/-- C9: on every PbufferGLContext, SwapBuffers and GetSize end in the fatal
fault of NOTREACHED; neither returns normally, and GetSize yields no size. -/
theorem SwapBuffers_and_GetSize_fault (self : PbufferGLContext) :
    self.SwapBuffers = Except.error (Fault.fatal "Cannot call SwapBuffers on a PbufferGLContext.") ∧
    (∀ u : Unit, self.SwapBuffers ≠ Except.ok u) ∧
    self.GetSize =
      Except.error (Fault.fatal "Should not be requesting size of a PbufferGLContext.") ∧
    (∀ size : Size, self.GetSize ≠ Except.ok size) := by
  refine ⟨rfl, ?_, rfl, ?_⟩
  · intro u h
    cases h
  · intro size h
    cases h

/-- C10: GetHandle is null on a context that was never successfully
initialized or has been destroyed, for both variants.  For PbufferGLContext:
on a new object, after a failed Initialize of a new object, after every
Destroy, and after a Destroy that follows an Initialize.  For ViewGLContext
over the surface of the spec: before Initialize on a surface just created,
after a failed Initialize on a surface that exposed no handle, after every
Destroy, and after a Destroy that follows an Initialize; whatever the
collaborators do to the rest of the world. -/
theorem GetHandle_null_unless_initialized {W : Type} (d : Driver W)
    (ds : Driver (SurfaceWorld W)) (init : W → Bool × GLContextHandle × W) (destroy : W → W)
    (makeCurrent : GLContextHandle → W → Bool × W) :
    PbufferGLContext.new.GetHandle = NULL ∧
    (∀ (shared_context : Option (GLContext W)) (e : Env W),
      (PbufferGLContext.new.Initialize d shared_context e).1 = false →
      (PbufferGLContext.new.Initialize d shared_context e).2.1.GetHandle = NULL) ∧
    (∀ (self : PbufferGLContext) (e : Env W), (self.Destroy d e).1.GetHandle = NULL) ∧
    (∀ (self : PbufferGLContext) (shared_context : Option (GLContext W)) (e : Env W),
      ((self.Initialize d shared_context e).2.1.Destroy d
        (self.Initialize d shared_context e).2.2).1.GetHandle = NULL) ∧
    (∀ (w : W) (calls : List NativeCall) (dlog : List (Severity × String)),
      ((specView init destroy makeCurrent).GetHandle
        { world := SurfaceWorld.fresh w, calls := calls, dlog := dlog }).1 = NULL) ∧
    (∀ (multisampled : Bool) (e : Env (SurfaceWorld W)),
      e.world.handle = NULL →
      ((specView init destroy makeCurrent).Initialize ds multisampled e).1 = false →
      ((specView init destroy makeCurrent).GetHandle
        ((specView init destroy makeCurrent).Initialize ds multisampled e).2).1 = NULL) ∧
    (∀ (e : Env (SurfaceWorld W)),
      ((specView init destroy makeCurrent).GetHandle
        ((specView init destroy makeCurrent).Destroy e)).1 = NULL) ∧
    (∀ (multisampled : Bool) (e : Env (SurfaceWorld W)),
      ((specView init destroy makeCurrent).GetHandle
        ((specView init destroy makeCurrent).Destroy
          ((specView init destroy makeCurrent).Initialize ds multisampled e).2)).1 = NULL) := by
  refine ⟨rfl, ?_, ?_, ?_, ?_, ?_, ?_, ?_⟩
  · intro shared_context e hfail
    rcases Initialize_false_obj d _ shared_context e hfail with h | h <;> rw [h] <;> rfl
  · intro self e
    rw [Destroy_fst]
    rfl
  · intro self shared_context e
    rw [Destroy_fst]
    rfl
  · intro w calls dlog
    rfl
  · intro multisampled e hnull hfail
    cases hi : (init e.world.rest).1
    · cases multisampled <;>
        simp [ViewGLContext.Initialize, ViewGLContext.GetHandle, specView, specSurface,
          Env.step, DLOG, hi, hnull]
    · cases multisampled <;>
        simp only [ViewGLContext.Initialize, ViewGLContext.MakeCurrent, ViewGLContext.Destroy,
          ViewGLContext.GetHandle, specView, specSurface, Env.step, DLOG, hi] at hfail ⊢ <;>
        split_ifs at hfail ⊢ <;> simp_all
  · intro e
    rfl
  · intro multisampled e
    rfl

/-- C10 at concrete inputs: a PbufferGLContext whose context creation fails,
and a ViewGLContext over a surface of the spec whose Initialize fails, and
over one that is initialized to the context 41 and then destroyed. -/
theorem GetHandle_null_unless_initialized_witness :
    (scriptedRun 3).1 = false ∧ (scriptedRun 3).2.1.GetHandle = NULL ∧
    ((specView (fun w => (false, NULL, w)) id (fun _ w => (true, w))).Initialize
      (quietDriver true) false (Env.fresh ())).1 = false ∧
    ((specView (fun w => (false, NULL, w)) id (fun _ w => (true, w))).GetHandle
      ((specView (fun w => (false, NULL, w)) id (fun _ w => (true, w))).Initialize
        (quietDriver true) false (Env.fresh ())).2).1 = NULL ∧
    ((specView (fun w => (true, 41, w)) id (fun _ w => (true, w))).Initialize
      (quietDriver true) false (Env.fresh ())).1 = true ∧
    ((specView (fun w => (true, 41, w)) id (fun _ w => (true, w))).GetHandle
      ((specView (fun w => (true, 41, w)) id (fun _ w => (true, w))).Initialize
        (quietDriver true) false (Env.fresh ())).2).1 = 41 ∧
    ((specView (fun w => (true, 41, w)) id (fun _ w => (true, w))).GetHandle
      ((specView (fun w => (true, 41, w)) id (fun _ w => (true, w))).Destroy
        ((specView (fun w => (true, 41, w)) id (fun _ w => (true, w))).Initialize
          (quietDriver true) false (Env.fresh ())).2)).1 = NULL :=
  ⟨rfl,
    (GetHandle_null_unless_initialized (scriptedDriver 3) (quietDriver true)
      (fun w => (false, NULL, w)) id (fun _ w => (true, w))).2.1 none Env.start rfl,
    rfl,
    (GetHandle_null_unless_initialized (quietDriver true) (quietDriver true)
      (fun w => (false, NULL, w)) id (fun _ w => (true, w))).2.2.2.2.2.1 false
      (Env.fresh ()) rfl rfl,
    rfl, rfl,
    (GetHandle_null_unless_initialized (quietDriver true) (quietDriver true)
      (fun w => (true, 41, w)) id (fun _ w => (true, w))).2.2.2.2.2.2.2 false (Env.fresh ())⟩

end gpu
